import Mathlib

/-!
Verification of the ingestion-and-curation pipeline of this repository
against its natural-language specification.

Python strings are modelled as lists of characters (`Str`); Python string
operations (strip, lower, split, substring containment, slicing) are
translated into executable Lean functions below.  Machine integers are
modelled as `Int`/`Nat` (Python integers are unbounded, so no overflow
modelling is needed).  External library boundaries (BeautifulSoup DOM
queries, urljoin, the LLM oracle, date parsing via strptime/dateutil) are
modelled as explicit inputs, mirroring the request/response shape the code
consumes.
-/

/-- Python strings, modelled as lists of characters. -/
abbrev Str := List Char

/-- Converts a Lean string literal to the character-list model. -/
def str (x : String) : Str := x.data

/-- Python str.lower, restricted to the ASCII range (Char.toLower lowers
only the letters A-Z; all keywords and markers in this code base are ASCII
or Chinese, and Chinese characters are unchanged by lowering). -/
def pyLower (s : Str) : Str := s.map Char.toLower

/-- Python str.strip with no argument: removes leading and trailing
whitespace. -/
def pyStrip (s : Str) : Str :=
  ((s.dropWhile Char.isWhitespace).reverse.dropWhile Char.isWhitespace).reverse

/-- Python str.rstrip with a single slash argument: removes trailing
slash characters. -/
def pyRstripSlash (s : Str) : Str :=
  (s.reverse.dropWhile (fun c => c = '/')).reverse

/-- Python substring containment, the expression kw in text: pat occurs
contiguously in text (the empty pattern occurs everywhere). -/
def substr (pat : Str) : Str → Bool
  | [] => decide (pat = [])
  | c :: rest => pat.isPrefixOf (c :: rest) || substr pat rest

/-- Python str.split with no argument: splits on runs of whitespace and
drops empty pieces.  The accumulator holds the current word reversed. -/
def pySplitGo (acc : Str) : Str → List Str
  | [] => if acc = [] then [] else [acc.reverse]
  | c :: rest =>
    if c.isWhitespace then
      if acc = [] then pySplitGo [] rest
      else acc.reverse :: pySplitGo [] rest
    else pySplitGo (c :: acc) rest

/-- Python str.split with no argument. -/
def pySplit (s : Str) : List Str := pySplitGo [] s

/-- One maximal whitespace run is replaced by a single space: the regex
substitution of whitespace-plus by one space used by the title normalizer.
The boolean flag records whether the previous character was whitespace. -/
def collapseWsGo (prevWs : Bool) : Str → Str
  | [] => []
  | c :: rest =>
    if c.isWhitespace then
      (if prevWs then [] else [' ']) ++ collapseWsGo true rest
    else c :: collapseWsGo false rest

/-- Regex substitution replacing each maximal whitespace run by one space. -/
def collapseWs (s : Str) : Str := collapseWsGo false s

/-- Python " ".join over a list of strings. -/
def joinSpace (l : List Str) : Str := (l.intersperse (str " ")).flatten

/-- Word characters of the regex class used by the tracking-parameter
pattern. -/
def isWordChar (c : Char) : Bool := c.isAlphanum || c = '_'

/-- Attempts to match one fixed tracking-parameter name followed by an
equals sign at the head of rest; on success returns the remainder after
additionally consuming the run of non-ampersand characters (the value). -/
def tryTrackName (name : Str) (rest : Str) : Option Str :=
  if (name ++ ['=']).isPrefixOf rest then
    some ((rest.drop (name.length + 1)).dropWhile (fun c => c ≠ '&'))
  else none

/-- Attempts to match utm underscore-prefixed parameter names (utm followed
by an underscore and one or more word characters) plus equals sign and
value.  The greedy word-character run is the only viable split because the
next required character, the equals sign, is not a word character. -/
def tryTrackUtm (rest : Str) : Option Str :=
  if (str "utm_").isPrefixOf rest then
    let afterUtm := rest.drop 4
    let w := afterUtm.takeWhile isWordChar
    let r := afterUtm.drop w.length
    if w ≠ [] ∧ ['='].isPrefixOf r then
      some ((r.drop 1).dropWhile (fun c => c ≠ '&'))
    else none
  else none

/-- Matches the tail of the tracking-parameter regex alternation after the
leading question mark or ampersand.  The four alternatives start with
distinct characters, so left-to-right alternation order is immaterial. -/
def matchTrackTail (rest : Str) : Option Str :=
  match tryTrackUtm rest with
  | some r => some r
  | none =>
    match tryTrackName (str "ref") rest with
    | some r => some r
    | none =>
      match tryTrackName (str "source") rest with
      | some r => some r
      | none => tryTrackName (str "campaign") rest

/-- Left-to-right non-overlapping substitution of the tracking-parameter
regex by the empty string.  Fuel bounds the recursion; every step consumes
at least one character, so fuel equal to the input length always suffices
and the zero-fuel branch is never reached from subTracking. -/
def subTrackingGo : Nat → Str → Str
  | _, [] => []
  | 0, l => l
  | fuel + 1, c :: rest =>
    if c = '?' ∨ c = '&' then
      match matchTrackTail rest with
      | some r => subTrackingGo fuel r
      | none => c :: subTrackingGo fuel rest
    else c :: subTrackingGo fuel rest

/-- Regex substitution removing common tracking parameters from a URL. -/
def subTracking (s : Str) : Str := subTrackingGo s.length s

/-! ## Data model: src/database/models.py -/

/-- RawArticle dataclass from src/database/models.py.  The published date
is optional free text; the content hash may be the empty string (its
dataclass default). -/
structure RawArticle where
  source_name : Str
  source_category : Str
  source_sub_category : Str
  url : Str
  title : Str
  content_snippet : Str
  published_date : Option Str
  collected_at : Str
  content_hash : Str
  id : Option Int
deriving DecidableEq

/-! ## Configuration: src/config/settings.py -/

namespace settings

/-- MAX_SNIPPET_LENGTH from settings.py. -/
def MAX_SNIPPET_LENGTH : Nat := 500

/-- MAX_ARTICLES_PER_SOURCE from settings.py. -/
def MAX_ARTICLES_PER_SOURCE : Nat := 20

/-- DEDUP_SIMILARITY_THRESHOLD from settings.py, the decimal 0.8 as an
exact rational. -/
def DEDUP_SIMILARITY_THRESHOLD : ℚ := 8 / 10

/-- CATEGORIES dict from settings.py: the fixed closed set of ten category
labels with their descriptions, in insertion order. -/
def CATEGORIES : List (Str × Str) :=
  [ (str "技术突破", str "新模型、新算法、技术里程碑"),
    (str "产品发布", str "新产品、功能更新、版本发布"),
    (str "企业动态", str "并购、合作、组织调整、战略布局"),
    (str "政策监管", str "各国AI政策、法规、标准、治理"),
    (str "投融资", str "融资、IPO、估值、市场交易"),
    (str "研究前沿", str "学术论文、研究成果、实验突破"),
    (str "行业应用", str "AI落地案例、行业解决方案"),
    (str "人才市场", str "人才流动、劳动力影响、教育培训"),
    (str "安全伦理", str "AI安全、对齐、伦理、风险"),
    (str "芯片与算力", str "AI芯片、数据中心、算力基建、半导体") ]

/-- CATEGORY_ORDER from settings.py: the keys of CATEGORIES in order. -/
def CATEGORY_ORDER : List Str := CATEGORIES.map Prod.fst

end settings

/-! ## Deduplicator: src/curators/deduplicator.py -/

namespace Deduplicator

/-- URL normalization from the deduplicator: strip whitespace, remove
trailing slashes, lowercase, then remove common tracking parameters. -/
def normalize_url (url : Str) : Str :=
  subTracking (pyLower (pyRstripSlash (pyStrip url)))

/-- Title normalization from the deduplicator: strip, lowercase, collapse
whitespace runs to single spaces. -/
def normalize_title (title : Str) : Str :=
  collapseWs (pyLower (pyStrip title))

/-- Jaccard similarity of two word sets, zero when either set is empty. -/
def jaccard_similarity (a b : Finset Str) : ℚ :=
  if a = ∅ ∨ b = ∅ then 0
  else if 0 < (a ∪ b).card then ((a ∩ b).card : ℚ) / ((a ∪ b).card : ℚ)
  else 0

/-- Checks whether a normalized title is similar, at or above the
configured threshold, to any previously accepted normalized title.  Titles
with fewer than three distinct words are exempt. -/
def is_similar_to_any (title : Str) (seen : List Str) : Bool :=
  let title_words := (pySplit title).toFinset
  if title_words.card < 3 then false
  else seen.any fun seen_title =>
    settings.DEDUP_SIMILARITY_THRESHOLD ≤
      jaccard_similarity title_words (pySplit seen_title).toFinset

/-- Placeholder markers of screenshot-capture entries. -/
def placeholders : List Str :=
  [str "截图采集", str "需要人工处理", str "反爬保护",
   str "[截图采集]", str "截图已保存", str "截图已存档"]

/-- Checks whether a title is a placeholder entry. -/
def is_placeholder (title : Str) : Bool :=
  placeholders.any fun p => substr p title

/-- Accumulated seen state of the deduplication pass: the set of normalized
URLs, the set of nonempty content hashes, and the accepted normalized
titles in acceptance order. -/
structure SeenState where
  urls : Finset Str
  hashes : Finset Str
  titles : List Str

/-- One pass of Deduplicator.deduplicate over the remaining articles,
threading the seen state.  Mirrors the loop body checks in order: title
presence and minimum stripped length, placeholder marker, normalized URL
already seen, nonempty content hash already seen, title similarity; an
accepted article records its URL, hash (when nonempty) and title. -/
def dedupGo (s : SeenState) : List RawArticle → List RawArticle
  | [] => []
  | a :: rest =>
    if a.title = [] ∨ (pyStrip a.title).length < 3 then dedupGo s rest
    else if is_placeholder a.title then dedupGo s rest
    else
      let normalized_url := normalize_url a.url
      if normalized_url ∈ s.urls then dedupGo s rest
      else if a.content_hash ≠ [] ∧ a.content_hash ∈ s.hashes then dedupGo s rest
      else
        let normalized_title := normalize_title a.title
        if is_similar_to_any normalized_title s.titles then dedupGo s rest
        else
          a :: dedupGo
            { urls := insert normalized_url s.urls,
              hashes := if a.content_hash ≠ [] then insert a.content_hash s.hashes
                        else s.hashes,
              titles := s.titles ++ [normalized_title] } rest

/-- Deduplicator.deduplicate: single greedy pass from the empty seen state.
The early return on an empty input list in the source coincides with the
behaviour of the pass on the empty list. -/
def deduplicate (articles : List RawArticle) : List RawArticle :=
  dedupGo ⟨∅, ∅, []⟩ articles

/-- Acceptance predicate of one loop iteration: the conjunction of all
five checks an article must pass against the current seen state. -/
def accepts (s : SeenState) (a : RawArticle) : Prop :=
  ¬(a.title = [] ∨ (pyStrip a.title).length < 3) ∧
  is_placeholder a.title = false ∧
  normalize_url a.url ∉ s.urls ∧
  ¬(a.content_hash ≠ [] ∧ a.content_hash ∈ s.hashes) ∧
  is_similar_to_any (normalize_title a.title) s.titles = false

instance (s : SeenState) (a : RawArticle) : Decidable (accepts s a) := by
  unfold accepts; infer_instance

/-- State update performed when an article is accepted. -/
def updateSeen (s : SeenState) (a : RawArticle) : SeenState :=
  { urls := insert (normalize_url a.url) s.urls,
    hashes := if a.content_hash ≠ [] then insert a.content_hash s.hashes
              else s.hashes,
    titles := s.titles ++ [normalize_title a.title] }

theorem dedupGo_cons (s : SeenState) (a : RawArticle) (rest : List RawArticle) :
    dedupGo s (a :: rest) =
      if accepts s a then a :: dedupGo (updateSeen s a) rest
      else dedupGo s rest := by
  by_cases h : accepts s a
  · rw [if_pos h]
    obtain ⟨h1, h2, h3, h4, h5⟩ := h
    simp only [dedupGo, updateSeen]
    rw [if_neg h1, if_neg (by simp [h2]), if_neg h3, if_neg h4,
        if_neg (by simp [h5])]
  · rw [if_neg h]
    simp only [dedupGo]
    split_ifs with h1 h2 h3 h4 h5 h6 <;>
      first
        | rfl
        | exact absurd ⟨h1, by simpa using h2, h3, h4, by simpa using h5⟩ h

theorem dedupGo_idem :
    ∀ (l : List RawArticle) (s : SeenState),
      dedupGo s (dedupGo s l) = dedupGo s l := by
  intro l
  induction l with
  | nil => intro s; rfl
  | cons a rest ih =>
    intro s
    by_cases h : accepts s a
    · rw [dedupGo_cons s a rest, if_pos h, dedupGo_cons s a _, if_pos h]
      exact congrArg (a :: ·) (ih (updateSeen s a))
    · rw [dedupGo_cons s a rest, if_neg h]
      exact ih s

theorem dedupGo_hash_invariant :
    ∀ (l : List RawArticle) (s : SeenState),
      (∀ b ∈ dedupGo s l, b.content_hash ≠ [] → b.content_hash ∉ s.hashes) ∧
      (dedupGo s l).Pairwise
        (fun a b => a.content_hash ≠ [] → a.content_hash ≠ b.content_hash) := by
  intro l
  induction l with
  | nil => intro s; exact ⟨by simp [dedupGo], List.Pairwise.nil⟩
  | cons a rest ih =>
    intro s
    by_cases h : accepts s a
    · rw [dedupGo_cons s a rest, if_pos h]
      obtain ⟨hfresh, hpw⟩ := ih (updateSeen s a)
      have hsub : s.hashes ⊆ (updateSeen s a).hashes := by
        simp only [updateSeen]
        split_ifs
        · exact Finset.subset_insert _ _
        · exact Finset.Subset.refl _
      constructor
      · intro b hb hbne
        rcases List.mem_cons.mp hb with rfl | hb
        · intro hin
          exact h.2.2.2.1 ⟨hbne, hin⟩
        · intro hin
          exact hfresh b hb hbne (hsub hin)
      · refine List.Pairwise.cons ?_ hpw
        intro b hb hane heq
        have hbne : b.content_hash ≠ [] := heq ▸ hane
        have hbmem : b.content_hash ∈ (updateSeen s a).hashes := by
          simp only [updateSeen]
          rw [if_pos hane, ← heq]
          exact Finset.mem_insert_self _ _
        exact hfresh b hb hbne hbmem
    · rw [dedupGo_cons s a rest, if_neg h]
      exact ih s

end Deduplicator

/-- C2: Deduplicator.deduplicate is idempotent: applying it to its own
output returns that output unchanged, for every input list of
RawArticles. -/
theorem dedup_idempotent (articles : List RawArticle) :
    Deduplicator.deduplicate (Deduplicator.deduplicate articles) =
      Deduplicator.deduplicate articles :=
  Deduplicator.dedupGo_idem articles ⟨∅, ∅, []⟩

/-- Concrete articles showing that the empty content hash escapes the
fingerprint check of the deduplicator. -/
def c3a : RawArticle :=
  ⟨str "s1", str "c", str "sc", str "http://a.example/one",
   str "alpha beta", str "", none, str "t", [], none⟩

/-- Second concrete article with the same, empty, content hash. -/
def c3b : RawArticle :=
  ⟨str "s2", str "c", str "sc", str "http://b.example/two",
   str "gamma delta", str "", none, str "t", [], none⟩

/-- C3 counterexample: two distinct articles with the empty content hash
both survive deduplication, so two distinct output articles can share the
same content_hash value.  The hash-seen check in the source guards on the
hash being nonempty and never records empty hashes. -/
theorem dedup_fingerprint_counterexample :
    Deduplicator.deduplicate [c3a, c3b] = [c3a, c3b] ∧
    c3a ≠ c3b ∧ c3a.content_hash = c3b.content_hash := by
  refine ⟨by decide, by decide, rfl⟩

/-- C3 amended: no two distinct articles in the output of
Deduplicator.deduplicate share the same nonempty content_hash; articles
whose content_hash is empty are exempt from the fingerprint check. -/
theorem dedup_fingerprint_unique (articles : List RawArticle) :
    (Deduplicator.deduplicate articles).Pairwise
      (fun a b => a.content_hash ≠ [] → a.content_hash ≠ b.content_hash) :=
  (Deduplicator.dedupGo_hash_invariant articles ⟨∅, ∅, []⟩).2

/-! ## LLM client: src/llm/client.py -/

/-- Batch-request article record sent to the oracle: the fields of the
dicts the call sites build (title, snippet, source); absent fields default
to the empty string, matching the dict get calls with empty default. -/
structure ArticleDict where
  title : Str
  snippet : Str
  source : Str
deriving DecidableEq

namespace LLMClient

/-- AI_KEYWORDS from client.py, used by the keyword fallback filter. -/
def AI_KEYWORDS : List Str :=
  [str "artificial intelligence", str "machine learning", str "deep learning",
   str "neural network", str "large language model", str "llm", str "gpt",
   str "transformer", str "generative ai", str "gen ai", str "genai",
   str "computer vision", str "natural language processing", str "nlp",
   str "reinforcement learning", str "ai model", str "ai system",
   str "ai safety", str "ai alignment", str "ai regulation", str "ai policy",
   str "ai chip", str "gpu", str "tpu", str "ai accelerator",
   str "openai", str "anthropic", str "deepmind", str "meta ai",
   str "chatgpt", str "claude", str "gemini", str "copilot",
   str "ai agent", str "autonomous", str "robotics",
   str "foundation model", str "multimodal", str "diffusion model",
   str "人工智能", str "机器学习", str "深度学习", str "大语言模型", str "大模型",
   str "生成式AI", str "神经网络", str "智能算法", str "AI芯片", str "算力",
   str "自动驾驶", str "智能体", str "具身智能"]

/-- Keyword fallback for relevance filtering: each article is tagged with
whether any AI keyword occurs in the lowercased title-plus-snippet text. -/
def fallback_filter (articles : List ArticleDict) : List (ArticleDict × Bool) :=
  articles.map fun art =>
    (art, AI_KEYWORDS.any fun kw =>
      substr kw (pyLower (art.title ++ str " " ++ art.snippet)))

/-- Keyword table of the classification fallback, in insertion order. -/
def classification_keywords : List (Str × List Str) :=
  [ (str "技术突破", [str "breakthrough", str "new model", str "state-of-the-art",
      str "benchmark", str "突破", str "里程碑"]),
    (str "产品发布", [str "launch", str "release", str "announce",
      str "available", str "发布", str "上线", str "推出"]),
    (str "企业动态", [str "acquire", str "merger", str "partnership",
      str "hire", str "收购", str "合作", str "战略"]),
    (str "政策监管", [str "regulation", str "policy", str "law", str "act",
      str "govern", str "政策", str "监管", str "法规"]),
    (str "投融资", [str "funding", str "invest", str "ipo", str "valuation",
      str "融资", str "投资", str "估值"]),
    (str "研究前沿", [str "research", str "paper", str "study", str "arxiv",
      str "论文", str "研究"]),
    (str "行业应用", [str "deploy", str "implement", str "use case",
      str "industry", str "应用", str "落地"]),
    (str "人才市场", [str "talent", str "hire", str "workforce", str "job",
      str "人才", str "就业"]),
    (str "安全伦理", [str "safety", str "alignment", str "ethics", str "risk",
      str "bias", str "安全", str "伦理"]),
    (str "芯片与算力", [str "chip", str "gpu", str "semiconductor",
      str "compute", str "芯片", str "算力", str "半导体"]) ]

/-- One step of the best-category fold: a category with a strictly larger
keyword hit count replaces the incumbent. -/
def classifyStep (text : Str) (best : Str × Nat) (ck : Str × List Str) :
    Str × Nat :=
  let count := ck.2.countP fun kw => substr kw text
  if best.2 < count then (ck.1, count) else best

/-- Best category of the classification fallback for one article, starting
from the default with hit count zero. -/
def fallback_classify_best (art : ArticleDict) : Str :=
  let text := pyLower (art.title ++ str " " ++ art.snippet)
  (classification_keywords.foldl (classifyStep text) (str "企业动态", 0)).1

/-- Keyword fallback for classification: each article is assigned the
category whose keyword list scores the strictly highest hit count, with
the corporate-news default. -/
def fallback_classify (articles : List ArticleDict) : List (ArticleDict × Str) :=
  articles.map fun art => (art, fallback_classify_best art)

/-- High-priority source markers of the scoring fallback. -/
def high_priority_sources : List Str :=
  [str "openai", str "google", str "meta", str "microsoft", str "apple",
   str "nvidia", str "anthropic", str "白宫", str "ostp", str "nist",
   str "eu", str "欧盟"]

/-- Major-event keywords of the scoring fallback. -/
def major_keywords : List Str :=
  [str "breakthrough", str "regulation", str "ban", str "billion",
   str "launch", str "突破", str "发布", str "禁止", str "亿"]

/-- Rule-based fallback for importance scoring: default 3, plus one for a
high-priority source substring, plus one for a major keyword in the title,
capped at 5. -/
def fallback_score (articles : List ArticleDict) : List (ArticleDict × Int) :=
  articles.map fun art =>
    let source := pyLower art.source
    let title := pyLower art.title
    let score : Int := 3 +
      (if high_priority_sources.any (fun s => substr s source) then 1 else 0) +
      (if major_keywords.any (fun kw => substr kw title) then 1 else 0)
    (art, min score 5)

/-- Per-article outcome of the score-response parser combined with the
importance_score dict read: a score parsed from the oracle response is
clamped into the one-to-five range; an absent score defaults to 3.  The
argument is the raw integer the parser read for this article, if any. -/
def parse_score (raw : Option Int) : Int :=
  match raw with
  | some score => max 1 (min 5 score)
  | none => 3

theorem parse_score_bounds (raw : Option Int) :
    1 ≤ parse_score raw ∧ parse_score raw ≤ 5 := by
  cases raw <;> simp only [parse_score] <;> omega

end LLMClient

/-! ## Importance scorer: src/curators/scorer.py -/

namespace ImportanceScorer

/-- TIER1_SOURCES from scorer.py. -/
def TIER1_SOURCES : List Str :=
  [str "OpenAI", str "Alphabet/Google", str "Microsoft", str "Meta",
   str "Apple", str "NVIDIA", str "Anthropic", str "xAI", str "Mistral AI"]

/-- POLICY_SOURCES from scorer.py. -/
def POLICY_SOURCES : List Str :=
  [str "白宫OSTP", str "NIST", str "BIS", str "FTC", str "DOJ",
   str "欧盟AI Office", str "EU AI Act", str "DSIT",
   str "CHIPS.gov", str "CRS", str "GAO"]

/-- KEY_FIGURES from scorer.py. -/
def KEY_FIGURES : List Str :=
  [str "elon musk", str "马斯克", str "sam altman", str "奥特曼", str "altman",
   str "jensen huang", str "黄仁勋", str "huang",
   str "satya nadella", str "纳德拉", str "nadella",
   str "sundar pichai", str "皮查伊", str "pichai",
   str "mark zuckerberg", str "扎克伯格", str "zuckerberg",
   str "tim cook", str "库克",
   str "dario amodei", str "amodei",
   str "demis hassabis", str "哈萨比斯", str "hassabis",
   str "fei-fei li", str "李飞飞",
   str "andrew ng", str "吴恩达",
   str "geoffrey hinton", str "辛顿", str "hinton",
   str "yann lecun", str "lecun",
   str "ilya sutskever", str "sutskever"]

/-- MAJOR_EVENT_KEYWORDS from scorer.py. -/
def MAJOR_EVENT_KEYWORDS : List Str :=
  [str "launch", str "release", str "announce", str "unveil", str "introduce",
   str "发布", str "推出", str "发布会", str "上线",
   str "billion", str "亿", str "万亿", str "trillion",
   str "executive order", str "行政令", str "legislation", str "法案",
   str "regulation",
   str "ban", str "禁令", str "sanction", str "制裁", str "tariff", str "关税",
   str "act", str "law", str "directive", str "指令",
   str "breakthrough", str "突破", str "milestone", str "里程碑",
   str "first", str "首次", str "record", str "纪录",
   str "ipo", str "acquisition", str "收购", str "merger", str "合并",
   str "partnership", str "合作", str "alliance", str "联盟",
   str "strategy", str "战略", str "roadmap", str "路线图"]

/-- Rule-based bonus of the importance scorer: one point each for a tier-1
source, a policy source, a key-figure mention, and at least two
major-event keyword hits, capped in aggregate at two. -/
def compute_bonus (article : RawArticle) : Int :=
  let text := pyLower article.title ++ str " " ++ pyLower article.content_snippet
  let b1 : Int := if article.source_name ∈ TIER1_SOURCES then 1 else 0
  let b2 : Int := if article.source_name ∈ POLICY_SOURCES then 1 else 0
  let b3 : Int := if KEY_FIGURES.any (fun fig => substr fig text) then 1 else 0
  let b4 : Int :=
    if 2 ≤ MAJOR_EVENT_KEYWORDS.countP (fun kw => substr kw text) then 1 else 0
  min (b1 + b2 + b3 + b4) 2

theorem compute_bonus_bounds (article : RawArticle) :
    0 ≤ compute_bonus article ∧ compute_bonus article ≤ 2 := by
  simp only [compute_bonus]
  split_ifs <;> omega

/-- ImportanceScorer.score_articles: the oracle base score for the article
at each position (the raw parsed response value, if any) is combined with
the rule bonus and capped at the scale maximum 5. -/
def score_articles (oracle : Nat → Option Int)
    (articles : List (RawArticle × Str)) : List (RawArticle × Str × Int) :=
  articles.enum.map fun p =>
    (p.2.1, p.2.2, min (LLMClient.parse_score (oracle p.1) + compute_bonus p.2.1) 5)

end ImportanceScorer

/-- C1: every final importance score returned by
ImportanceScorer.score_articles lies in the one-to-five range, for every
input list and every oracle score response: the parsed base score is
clamped into the range (default 3), the rule bonus is between 0 and 2,
and the sum is capped at 5. -/
theorem score_articles_in_range (oracle : Nat → Option Int)
    (articles : List (RawArticle × Str)) (r : RawArticle × Str × Int)
    (hr : r ∈ ImportanceScorer.score_articles oracle articles) :
    1 ≤ r.2.2 ∧ r.2.2 ≤ 5 := by
  obtain ⟨p, hp, rfl⟩ := List.mem_map.mp hr
  have hb := ImportanceScorer.compute_bonus_bounds p.2.1
  have hs := LLMClient.parse_score_bounds (oracle p.1)
  dsimp only
  omega

/-- Concrete article used to instantiate the scoring theorems. -/
def c1art : RawArticle :=
  ⟨str "s", str "c", str "sc", str "http://x",
   str "hello", str "", none, str "t", str "h", none⟩

/-- C1 witness: the theorem applied to a concrete article and a concrete
oracle response of 7, which is clamped to 5. -/
theorem score_articles_in_range_witness :
    1 ≤ ((c1art, str "企业动态", (5 : Int)) : RawArticle × Str × Int).2.2 ∧
    ((c1art, str "企业动态", (5 : Int)) : RawArticle × Str × Int).2.2 ≤ 5 :=
  score_articles_in_range (fun _ => some 7) [(c1art, str "企业动态")] _ (by decide)

theorem map_fst_pair {α β : Type} (f : α → β) (l : List α) :
    (l.map fun a => (a, f a)).map Prod.fst = l := by
  induction l with
  | nil => rfl
  | cons a rest ih => simp [ih]

theorem classifyStep_fold_mem (text : Str) :
    ∀ (l : List (Str × List Str)) (b : Str × Nat),
      b.1 ∈ settings.CATEGORY_ORDER →
      (∀ ck ∈ l, ck.1 ∈ settings.CATEGORY_ORDER) →
      (l.foldl (LLMClient.classifyStep text) b).1 ∈ settings.CATEGORY_ORDER := by
  intro l
  induction l with
  | nil => intro b hb _; exact hb
  | cons ck rest ih =>
    intro b hb hl
    simp only [List.foldl_cons]
    refine ih _ ?_ (fun x hx => hl x (List.mem_cons_of_mem _ hx))
    simp only [LLMClient.classifyStep]
    split_ifs
    · exact hl ck (List.mem_cons_self _ _)
    · exact hb

/-- C4: with the oracle unavailable, the three deterministic fallbacks
each return one output per input in the input order (the carried article
list is exactly the input), the relevance flag is a boolean, every
assigned category is one of the ten fixed labels, and every importance
score is an integer between 1 and 5. -/
theorem fallbacks_preserve_shape (articles : List ArticleDict) :
    ((LLMClient.fallback_filter articles).map Prod.fst = articles) ∧
    ((LLMClient.fallback_classify articles).map Prod.fst = articles) ∧
    ((LLMClient.fallback_score articles).map Prod.fst = articles) ∧
    (∀ p ∈ LLMClient.fallback_filter articles, p.2 = true ∨ p.2 = false) ∧
    (∀ p ∈ LLMClient.fallback_classify articles,
        p.2 ∈ settings.CATEGORY_ORDER) ∧
    (∀ p ∈ LLMClient.fallback_score articles, 1 ≤ p.2 ∧ p.2 ≤ 5) := by
  refine ⟨?_, ?_, ?_, ?_, ?_, ?_⟩
  · simp only [LLMClient.fallback_filter, map_fst_pair]
  · simp only [LLMClient.fallback_classify, map_fst_pair]
  · simp only [LLMClient.fallback_score, map_fst_pair]
  · intro p _
    exact Bool.eq_false_or_eq_true p.2
  · intro p hp
    obtain ⟨a, _, rfl⟩ := List.mem_map.mp hp
    exact classifyStep_fold_mem _ _ _ (by decide) (by decide)
  · intro p hp
    obtain ⟨a, _, rfl⟩ := List.mem_map.mp hp
    dsimp only
    constructor <;> split_ifs <;> omega

/-- Concrete article dict used to instantiate the fallback theorem. -/
def c4art : ArticleDict :=
  ⟨str "gpt breakthrough billion", str "", str "openai"⟩

/-- C4 witness: the theorem applied to a one-element concrete list; the
fallback classifier assigns the technology-milestone label, which the
theorem places inside the fixed ten-label set, and the fallback score 5
lies in range. -/
theorem fallbacks_preserve_shape_witness :
    (str "技术突破") ∈ settings.CATEGORY_ORDER ∧
    (1 ≤ (5 : Int) ∧ (5 : Int) ≤ 5) :=
  ⟨(fallbacks_preserve_shape [c4art]).2.2.2.2.1 (c4art, str "技术突破")
      (by decide),
   (fallbacks_preserve_shape [c4art]).2.2.2.2.2 (c4art, (5 : Int)) (by decide)⟩

/-! ## Browser collector blocked-page heuristic:
src/collectors/browser_collector.py -/

/-- State machine implementing the left-to-right non-overlapping regex
substitution that deletes angle-bracket tags (an opening bracket, one or
more non-closing-bracket characters, a closing bracket).  The first
argument is the pending tag buffer in reverse order (none when outside a
candidate tag); an unterminated buffer is flushed verbatim at the end, and
an immediately closed empty pair is kept, both as the regex leaves them. -/
def stripTagsGo : Option Str → Str → Str
  | none, [] => []
  | none, c :: rest =>
    if c = '<' then stripTagsGo (some ['<']) rest
    else c :: stripTagsGo none rest
  | some buf, [] => buf.reverse
  | some buf, c :: rest =>
    if c = '>' then
      if buf = ['<'] then '<' :: '>' :: stripTagsGo none rest
      else stripTagsGo none rest
    else stripTagsGo (some (c :: buf)) rest

namespace BrowserCollector

/-- Removes angle-bracket tag markup, as the blocked-page check does
before measuring visible text length. -/
def stripTags (html : Str) : Str := stripTagsGo none html

/-- Known block phrases from the blocked-page check. -/
def block_indicators : List Str :=
  [str "access denied", str "403 forbidden", str "captcha", str "cloudflare",
   str "please verify you are human", str "bot detection",
   str "automated access", str "rate limited", str "too many requests",
   str "please enable javascript", str "challenge-platform"]

/-- BrowserCollector code deciding whether a fetched page was blocked:
empty content is blocked; stripped text shorter than 200 characters is
blocked; otherwise blocked exactly when at least two known block phrases
occur in the lowercased content. -/
def check_if_blocked (html : Str) : Bool :=
  if html = [] then true
  else
    let text_content := pyStrip (stripTags html)
    if text_content.length < 200 then true
    else
      let html_lower := pyLower html
      decide (2 ≤ block_indicators.countP fun ind => substr ind html_lower)

/-- Modelled from the spec: the number of independent anti-bot indicators
present in the content, counting the short-body heuristic as one indicator
and each known block phrase as one indicator. -/
def spec_indicator_count (html : Str) : Nat :=
  (if (pyStrip (stripTags html)).length < 200 then 1 else 0) +
  block_indicators.countP fun ind => substr ind (pyLower html)

end BrowserCollector

/-- C5 counterexample: a legitimately short page with no block phrase is
classified as blocked on the strength of the single short-body indicator,
so one indicator does suffice, contrary to the claim. -/
theorem check_if_blocked_counterexample :
    BrowserCollector.check_if_blocked (str "hello") = true ∧
    BrowserCollector.spec_indicator_count (str "hello") < 2 := by
  decide

/-- C5 amended: the two-independent-indicators rule applies only among the
known block phrases, and only once the stripped body is at least 200
characters; a shorter or empty body alone classifies the page as
blocked. -/
theorem check_if_blocked_two_phrases (html : Str)
    (hlen : 200 ≤ (pyStrip (BrowserCollector.stripTags html)).length) :
    BrowserCollector.check_if_blocked html = true ↔
      2 ≤ BrowserCollector.block_indicators.countP
            fun ind => substr ind (pyLower html) := by
  have hne : html ≠ [] := by
    intro h
    rw [h] at hlen
    simp [BrowserCollector.stripTags, stripTagsGo, pyStrip] at hlen
  simp only [BrowserCollector.check_if_blocked]
  rw [if_neg hne, if_neg (by omega)]
  exact decide_eq_true_iff

/-- Concrete page content for the amended blocked-check theorem: two block
phrases followed by two hundred filler characters. -/
def c5html : Str := str "captcha cloudflare " ++ List.replicate 200 'a'

set_option maxRecDepth 8000 in
/-- C5 witness: the amended theorem applied to the concrete long page,
whose two block phrases make the check report blocked. -/
theorem check_if_blocked_two_phrases_witness :
    BrowserCollector.check_if_blocked c5html = true :=
  (check_if_blocked_two_phrases c5html (by decide)).mpr (by decide)

/-! ## Freshness filter: src/curators/commander.py -/

namespace CurationCommander

/-- FRESHNESS_DAYS from commander.py. -/
def FRESHNESS_DAYS : Int := 2

/-- CurationCommander code filtering articles by freshness.  Datetimes are
modelled as points on an integer time axis measured in days; the article
date parser (strptime format cascade plus lenient fuzzy parsing, an
external boundary) is passed in as a function from an optional date string
to an optional point.  An article is kept when its best available date,
published date first and collection timestamp second, is at or after the
cutoff, the reference date minus the freshness window; an article with no
parseable date at all is kept. -/
def freshness_pred (parse : Option Str → Option Int) (ref_date : Int)
    (art : RawArticle) : Bool :=
  match parse art.published_date with
  | some d => decide (ref_date - FRESHNESS_DAYS ≤ d)
  | none =>
    match parse (some art.collected_at) with
    | some d => decide (ref_date - FRESHNESS_DAYS ≤ d)
    | none => true

/-- Keeps exactly the articles whose freshness check passes, preserving
input order. -/
def filter_by_freshness (parse : Option Str → Option Int)
    (articles : List RawArticle) (ref_date : Int) : List RawArticle :=
  articles.filter (freshness_pred parse ref_date)

end CurationCommander

/-- C6: for every date parser and reference date, an article whose
published date parses to exactly the reference date minus FRESHNESS_DAYS
is kept by the freshness filter, and an article whose published date
parses to one day older than that cutoff is dropped. -/
theorem freshness_boundary (parse : Option Str → Option Int)
    (articles : List RawArticle) (ref_date : Int) (kept dropped : RawArticle)
    (hk : kept ∈ articles)
    (hkd : parse kept.published_date =
      some (ref_date - CurationCommander.FRESHNESS_DAYS))
    (hdd : parse dropped.published_date =
      some (ref_date - CurationCommander.FRESHNESS_DAYS - 1)) :
    kept ∈ CurationCommander.filter_by_freshness parse articles ref_date ∧
    dropped ∉ CurationCommander.filter_by_freshness parse articles ref_date := by
  constructor
  · refine List.mem_filter.mpr ⟨hk, ?_⟩
    simp [CurationCommander.freshness_pred, hkd]
  · intro hmem
    have hpred := (List.mem_filter.mp hmem).2
    simp [CurationCommander.freshness_pred, hdd,
      CurationCommander.FRESHNESS_DAYS] at hpred

/-- Date parser used by the freshness witnesses: a two-value table. -/
def c6parse : Option Str → Option Int := fun s =>
  if s = some (str "fresh") then some 98
  else if s = some (str "old") then some 97
  else none

/-- Concrete article dated exactly at the freshness cutoff. -/
def c6kept : RawArticle :=
  ⟨str "s", str "c", str "sc", str "http://k", str "kept title", str "",
   some (str "fresh"), str "t", str "hk", none⟩

/-- Concrete article dated one day older than the freshness cutoff. -/
def c6dropped : RawArticle :=
  ⟨str "s", str "c", str "sc", str "http://d", str "dropped title", str "",
   some (str "old"), str "t", str "hd", none⟩

/-- C6 witness: with reference date 100 and window 2, the article dated 98
is kept and the article dated 97 is dropped. -/
theorem freshness_boundary_witness :
    c6kept ∈ CurationCommander.filter_by_freshness c6parse
      [c6kept, c6dropped] 100 ∧
    c6dropped ∉ CurationCommander.filter_by_freshness c6parse
      [c6kept, c6dropped] 100 :=
  freshness_boundary c6parse [c6kept, c6dropped] 100 c6kept c6dropped
    (by decide) (by decide) (by decide)

/-- C7: an article whose published date and collection timestamp are both
unparseable is always kept by the freshness filter. -/
theorem freshness_unparseable_kept (parse : Option Str → Option Int)
    (articles : List RawArticle) (ref_date : Int) (art : RawArticle)
    (hmem : art ∈ articles)
    (hpub : parse art.published_date = none)
    (hcol : parse (some art.collected_at) = none) :
    art ∈ CurationCommander.filter_by_freshness parse articles ref_date := by
  refine List.mem_filter.mpr ⟨hmem, ?_⟩
  simp [CurationCommander.freshness_pred, hpub, hcol]

/-- C7 witness: the theorem applied to a concrete article under the
nowhere-defined parser. -/
theorem freshness_unparseable_kept_witness :
    c3a ∈ CurationCommander.filter_by_freshness (fun _ => none) [c3a] 0 :=
  freshness_unparseable_kept (fun _ => none) [c3a] 0 c3a (by decide) rfl rfl

/-! ## Classifier: src/curators/classifier.py -/

namespace ArticleClassifier

/-- Source-subcategory to category map of the classifier fallback guess. -/
def source_to_category : List (Str × Str) :=
  [ (str "AI芯片公司", str "芯片与算力"),
    (str "AI龙头企业", str "企业动态"),
    (str "新兴AI独角兽", str "企业动态"),
    (str "高校", str "研究前沿"),
    (str "学术期刊", str "研究前沿"),
    (str "欧洲研究机构", str "研究前沿"),
    (str "加拿大AI生态", str "研究前沿"),
    (str "学者言论", str "研究前沿"),
    (str "官网/社媒", str "研究前沿"),
    (str "科技与商业媒体", str "企业动态"),
    (str "中文快速聚合", str "企业动态"),
    (str "智库与咨询机构", str "行业应用"),
    (str "年度战略报告", str "行业应用"),
    (str "战略分析平台", str "芯片与算力"),
    (str "安全评测", str "安全伦理"),
    (str "投融资分析", str "投融资"),
    (str "PR新闻通讯社", str "企业动态"),
    (str "生态大会", str "产品发布"),
    (str "国际AI安全机构", str "政策监管"),
    (str "美国政策来源", str "政策监管"),
    (str "欧盟政策来源", str "政策监管"),
    (str "英国政策来源", str "政策监管"),
    (str "AI政策智库", str "政策监管"),
    (str "国际组织AI治理", str "政策监管"),
    (str "专利数据库", str "技术突破"),
    (str "人才市场", str "人才市场") ]

/-- Deterministic category guess from the article source subcategory, with
the corporate-news default. -/
def guess_category (article : RawArticle) : Str :=
  (source_to_category.lookup article.source_sub_category).getD (str "企业动态")

/-- ArticleClassifier.classify_articles: the oracle category for the
article at each position (if any, defaulting to corporate news) is
validated against the fixed label set and otherwise replaced by the
deterministic guess. -/
def classify_articles (oracleCat : Nat → Option Str)
    (articles : List RawArticle) : List (RawArticle × Str) :=
  articles.enum.map fun p =>
    let category := (oracleCat p.1).getD (str "企业动态")
    if category ∈ settings.CATEGORY_ORDER then (p.2, category)
    else (p.2, guess_category p.2)

theorem lookup_getD_mem (d : Str) (hd : d ∈ settings.CATEGORY_ORDER)
    (s : Str) :
    ∀ (m : List (Str × Str)), (∀ kv ∈ m, kv.2 ∈ settings.CATEGORY_ORDER) →
      ((m.lookup s).getD d) ∈ settings.CATEGORY_ORDER := by
  intro m
  induction m with
  | nil => intro _; simpa [List.lookup] using hd
  | cons kv rest ih =>
    intro hm
    obtain ⟨k, v⟩ := kv
    simp only [List.lookup]
    split
    · simpa using hm (k, v) (List.mem_cons_self _ _)
    · exact ih fun x hx => hm x (List.mem_cons_of_mem _ hx)

theorem guess_category_mem (article : RawArticle) :
    ArticleClassifier.guess_category article ∈ settings.CATEGORY_ORDER :=
  lookup_getD_mem _ (by decide) article.source_sub_category
    source_to_category (by decide)

end ArticleClassifier

/-- C8: every category returned by ArticleClassifier.classify_articles is
one of the ten fixed labels, for every input list and every oracle
response; an out-of-set oracle category is coerced through the
source-subcategory map with the corporate-news default. -/
theorem classify_in_categories (oracleCat : Nat → Option Str)
    (articles : List RawArticle) (p : RawArticle × Str)
    (hp : p ∈ ArticleClassifier.classify_articles oracleCat articles) :
    p.2 ∈ settings.CATEGORY_ORDER := by
  obtain ⟨q, hq, rfl⟩ := List.mem_map.mp hp
  dsimp only
  split_ifs with h
  · exact h
  · exact ArticleClassifier.guess_category_mem q.2

/-- C8 witness: an oracle answering with a nonsense category for a
concrete article is coerced to the corporate-news default, which the
theorem places inside the fixed label set. -/
theorem classify_in_categories_witness :
    ((c3a, str "企业动态") : RawArticle × Str).2 ∈ settings.CATEGORY_ORDER :=
  classify_in_categories (fun _ => some (str "nonsense")) [c3a]
    (c3a, str "企业动态") (by decide)

/-! ## Extractor: src/collectors/extractor.py

The BeautifulSoup DOM is an external library boundary: the DOM queries the
extractor performs (find of article tags, headings, links, paragraph
texts, the date helper, the page-title helper, the page text, the
trafilatura extraction) are modelled as the record fields below, holding
exactly the values those queries return; urljoin is likewise passed in as
a function.  Everything the extractor itself computes over those query
results is translated from the source. -/

namespace extractor

/-- A DOM link as the extractor consumes it: stripped text and the href
attribute with empty default. -/
structure BsLink where
  text : Str
  href : Str
deriving DecidableEq

/-- A DOM heading (first of h1 through h4 in a tag): its stripped text
and its first nested link, if any. -/
structure BsHeading where
  text : Str
  link : Option BsLink
deriving DecidableEq

/-- A DOM article tag as consumed by the per-tag extraction helper: first
heading, first link anywhere in the tag, paragraph texts in order, and
the date string the date helper extracts from the tag. -/
structure BsTag where
  heading : Option BsHeading
  firstLink : Option BsLink
  pTexts : List Str
  dateStr : Str
deriving DecidableEq

/-- A link matched by one of the heuristic CSS selectors: href, stripped
text, whether a parent container exists, the parent paragraph texts, and
the date string the date helper extracts from the parent. -/
structure SelLink where
  href : Str
  text : Str
  hasParent : Bool
  parentPTexts : List Str
  parentDate : Str
deriving DecidableEq

/-- An extracted item dict: title, url, date, snippet. -/
structure Item where
  title : Str
  url : Str
  date : Str
  snippet : Str
deriving DecidableEq

/-- The parsed page as the extractor queries it: article tags, selector
results per selector in order, the trafilatura full-text result (none on
failure), the page title helper result, the whole-page text, and the date
helper result on the whole page. -/
structure Soup where
  articleTags : List BsTag
  selectorLinks : List (List SelLink)
  trafilaturaText : Option Str
  pageTitle : Str
  pageText : Str
  soupDate : Str
deriving DecidableEq

/-- Per-tag extraction helper: title and url from the heading link, else
the heading text, else the first link in the tag; url defaults to the base
url; snippet is the first two paragraph texts joined and truncated; the
title is not truncated. -/
def extract_from_tag (urljoin : Str → Str → Str) (tag : BsTag)
    (base_url : Str) : Item :=
  let tu : Str × Str :=
    match tag.heading with
    | some h =>
      match h.link with
      | some l => (l.text, if l.href ≠ [] then urljoin base_url l.href else [])
      | none => (h.text, [])
    | none => ([], [])
  let tu :=
    if tu.1 = [] then
      match tag.firstLink with
      | some l => (l.text, if l.href ≠ [] then urljoin base_url l.href else tu.2)
      | none => tu
    else tu
  let url := if tu.2 = [] then base_url else tu.2
  let snippet :=
    if tag.pTexts ≠ [] then
      (joinSpace (tag.pTexts.take 2)).take settings.MAX_SNIPPET_LENGTH
    else []
  ⟨tu.1, url, tag.dateStr, snippet⟩

/-- First strategy: per-article-tag extraction over the first twenty
article tags, keeping items with a nonempty title. -/
def strategy_article_tags (urljoin : Str → Str → Str) (soup : Soup)
    (base_url : Str) : List Item :=
  ((soup.articleTags.take settings.MAX_ARTICLES_PER_SOURCE).map
    (fun tag => extract_from_tag urljoin tag base_url)).filter
    (fun art => art.title ≠ [])

/-- Item built from one accepted selector link: title truncated to 300,
snippet from the parent paragraphs truncated to the snippet bound. -/
def sel_item (l : SelLink) (full_url : Str) : Item :=
  let snippet :=
    if l.hasParent ∧ l.parentPTexts ≠ [] then joinSpace (l.parentPTexts.take 2)
    else []
  ⟨l.text.take 300, full_url,
   if l.hasParent then l.parentDate else [],
   if snippet ≠ [] then snippet.take settings.MAX_SNIPPET_LENGTH else []⟩

/-- Inner loop of the selector strategy over one selector result list:
skips empty, fragment and javascript hrefs, deduplicates against the
page-level seen set (recording before the title-length check, as the
source does), skips short titles, and appends an accepted item. -/
def process_links (urljoin : Str → Str → Str) (base_url : Str) :
    List SelLink → List Str → List Item → List Str × List Item
  | [], seen, acc => (seen, acc)
  | l :: ls, seen, acc =>
    if l.href = [] ∨ (str "#").isPrefixOf l.href ∨
        (str "javascript:").isPrefixOf l.href then
      process_links urljoin base_url ls seen acc
    else
      let full_url := urljoin base_url l.href
      if full_url ∈ seen then process_links urljoin base_url ls seen acc
      else
        if l.text = [] ∨ l.text.length < 5 then
          process_links urljoin base_url ls (full_url :: seen) acc
        else
          process_links urljoin base_url ls (full_url :: seen)
            (acc ++ [sel_item l full_url])

/-- Outer loop of the selector strategy: each selector contributes at most
twenty links, and the loop stops once at least five items have
accumulated. -/
def strategy_selectors_go (urljoin : Str → Str → Str) (base_url : Str) :
    List (List SelLink) → List Str → List Item → List Item
  | [], _, acc => acc
  | links :: rest, seen, acc =>
    let res := process_links urljoin base_url
      (links.take settings.MAX_ARTICLES_PER_SOURCE) seen acc
    if 5 ≤ res.2.length then res.2
    else strategy_selectors_go urljoin base_url rest res.1 res.2

/-- Third strategy: trafilatura full-page extraction, one item whose title
is the page title (or the source name) and whose snippet is the truncated
extracted text; the title is not truncated. -/
def strategy_trafilatura (soup : Soup) (base_url source_name : Str) :
    List Item :=
  match soup.trafilaturaText with
  | some result =>
    if result ≠ [] then
      [⟨if soup.pageTitle ≠ [] then soup.pageTitle else source_name,
        base_url, soup.soupDate, result.take settings.MAX_SNIPPET_LENGTH⟩]
    else []
  | none => []

/-- Last-resort strategy: whole-page text when the page has a title and
more than one hundred characters of text; the title is not truncated. -/
def strategy_whole_page (soup : Soup) (base_url : Str) : List Item :=
  if soup.pageTitle ≠ [] ∧ 100 < soup.pageText.length then
    [⟨soup.pageTitle, base_url, [], soup.pageText.take settings.MAX_SNIPPET_LENGTH⟩]
  else []

/-- The strategy cascade: each later strategy runs only when the earlier
ones produced nothing. -/
def pipeline (urljoin : Str → Str → Str) (soup : Soup)
    (base_url source_name : Str) : List Item :=
  let articles := strategy_article_tags urljoin soup base_url
  let articles :=
    if articles = [] then
      strategy_selectors_go urljoin base_url soup.selectorLinks [] []
    else articles
  let articles :=
    if articles = [] then strategy_trafilatura soup base_url source_name
    else articles
  let articles :=
    if articles = [] then strategy_whole_page soup base_url
    else articles
  articles

/-- extract_articles_from_html: the strategy cascade capped at the
per-source article bound.  The early return on blank HTML input in the
source yields the empty list, for which every bound below holds
trivially. -/
def extract_articles_from_html (urljoin : Str → Str → Str) (soup : Soup)
    (base_url source_name : Str) : List Item :=
  (pipeline urljoin soup base_url source_name).take
    settings.MAX_ARTICLES_PER_SOURCE

theorem take_len_le (n : Nat) (l : Str) : (l.take n).length ≤ n := by
  rw [List.length_take]
  exact min_le_left _ _

theorem extract_from_tag_snippet_le (urljoin : Str → Str → Str)
    (tag : BsTag) (base_url : Str) :
    (extract_from_tag urljoin tag base_url).snippet.length ≤
      settings.MAX_SNIPPET_LENGTH := by
  simp only [extract_from_tag]
  split_ifs <;> first | exact take_len_le _ _ | simp

theorem sel_item_bounds (l : SelLink) (full_url : Str) :
    (sel_item l full_url).title.length ≤ 300 ∧
    (sel_item l full_url).snippet.length ≤ settings.MAX_SNIPPET_LENGTH := by
  simp only [sel_item]
  refine ⟨take_len_le _ _, ?_⟩
  split_ifs <;> first | exact take_len_le _ _ | simp

theorem process_links_inv (urljoin : Str → Str → Str) (base_url : Str) :
    ∀ (ls : List SelLink) (seen : List Str) (acc : List Item),
      (∀ it ∈ acc, it.title.length ≤ 300 ∧
        it.snippet.length ≤ settings.MAX_SNIPPET_LENGTH) →
      ∀ it ∈ (process_links urljoin base_url ls seen acc).2,
        it.title.length ≤ 300 ∧
        it.snippet.length ≤ settings.MAX_SNIPPET_LENGTH := by
  intro ls
  induction ls with
  | nil =>
    intro seen acc h
    simpa [process_links] using h
  | cons l rest ih =>
    intro seen acc hacc
    simp only [process_links]
    split_ifs with h1 h2 h3
    · exact ih seen acc hacc
    · exact ih seen acc hacc
    · exact ih _ acc hacc
    · refine ih _ _ ?_
      intro it hit
      rcases List.mem_append.mp hit with hit | hit
      · exact hacc it hit
      · rw [List.mem_singleton.mp hit]
        exact sel_item_bounds l _

theorem strategy_selectors_go_inv (urljoin : Str → Str → Str)
    (base_url : Str) :
    ∀ (lls : List (List SelLink)) (seen : List Str) (acc : List Item),
      (∀ it ∈ acc, it.title.length ≤ 300 ∧
        it.snippet.length ≤ settings.MAX_SNIPPET_LENGTH) →
      ∀ it ∈ strategy_selectors_go urljoin base_url lls seen acc,
        it.title.length ≤ 300 ∧
        it.snippet.length ≤ settings.MAX_SNIPPET_LENGTH := by
  intro lls
  induction lls with
  | nil => intro seen acc h; simpa [strategy_selectors_go] using h
  | cons links rest ih =>
    intro seen acc hacc
    simp only [strategy_selectors_go]
    split_ifs
    · exact process_links_inv urljoin base_url _ seen acc hacc
    · exact ih _ _ (process_links_inv urljoin base_url _ seen acc hacc)

theorem pipeline_snippet_le (urljoin : Str → Str → Str) (soup : Soup)
    (base_url source_name : Str) :
    ∀ it ∈ pipeline urljoin soup base_url source_name,
      it.snippet.length ≤ settings.MAX_SNIPPET_LENGTH := by
  simp only [pipeline]
  split_ifs with h1 h2 h3
  · intro it hit
    simp only [strategy_whole_page] at hit
    split_ifs at hit
    · rw [List.mem_singleton.mp hit]
      exact take_len_le _ _
    · simp at hit
  · intro it hit
    rcases hsoup : soup.trafilaturaText with _ | result
    · simp [strategy_trafilatura, hsoup] at hit
    · simp only [strategy_trafilatura, hsoup] at hit
      split_ifs at hit <;>
        first
          | (rw [List.mem_singleton.mp hit]; exact take_len_le _ _)
          | simp at hit
  · intro it hit
    exact (strategy_selectors_go_inv urljoin base_url _ _ _ (by simp) it hit).2
  · intro it hit
    simp only [strategy_article_tags] at hit
    obtain ⟨tag, _, rfl⟩ := List.mem_map.mp (List.mem_of_mem_filter hit)
    exact extract_from_tag_snippet_le urljoin tag base_url

end extractor

/-- Concrete overlong title of three hundred and one characters. -/
def c9title : Str := List.replicate 301 'a'

/-- Concrete article tag whose heading carries the overlong title. -/
def c9tag : extractor.BsTag := ⟨some ⟨c9title, none⟩, none, [], []⟩

/-- Concrete page containing only that article tag. -/
def c9soup : extractor.Soup := ⟨[c9tag], [], none, [], [], []⟩

/-- Concrete urljoin resolving every reference to itself. -/
def c9urljoin : Str → Str → Str := fun _ rel => rel

set_option maxRecDepth 8000 in
/-- C9 counterexample: the article-tag strategy copies the heading text
into the title without truncation, so an extracted item can carry a title
longer than 300 characters. -/
theorem extractor_title_counterexample :
    extractor.extract_articles_from_html c9urljoin c9soup (str "http://x")
        (str "s") =
      [⟨c9title, str "http://x", [], []⟩] ∧
    300 < c9title.length := by
  constructor
  · decide
  · decide

/-- C9 amended: extract_articles_from_html always returns at most twenty
items and every snippet is truncated to at most 500 characters, but the
title is truncated to at most 300 characters only in the
heuristic-selector strategy; the article-tag, trafilatura and whole-page
strategies copy titles without truncation. -/
theorem extractor_bounds (urljoin : Str → Str → Str) (soup : extractor.Soup)
    (base_url source_name : Str) :
    (extractor.extract_articles_from_html urljoin soup base_url
        source_name).length ≤ settings.MAX_ARTICLES_PER_SOURCE ∧
    (∀ it ∈ extractor.extract_articles_from_html urljoin soup base_url
        source_name, it.snippet.length ≤ settings.MAX_SNIPPET_LENGTH) ∧
    (∀ (lls : List (List extractor.SelLink)),
      ∀ it ∈ extractor.strategy_selectors_go urljoin base_url lls [] [],
        it.title.length ≤ 300) := by
  refine ⟨?_, ?_, ?_⟩
  · rw [extractor.extract_articles_from_html, List.length_take]
    exact min_le_left _ _
  · intro it hit
    exact extractor.pipeline_snippet_le urljoin soup base_url source_name it
      (List.take_subset _ _ hit)
  · intro lls it hit
    exact (extractor.strategy_selectors_go_inv urljoin base_url lls [] []
      (by simp) it hit).1

/-- Concrete selector link used to instantiate the extractor bounds. -/
def c9link : extractor.SelLink := ⟨str "/a", str "hello world", false, [], []⟩

/-- Concrete page whose only content is one selector link. -/
def c9soupW : extractor.Soup := ⟨[], [[c9link]], none, [], [], []⟩

/-- C9 witness: the amended theorem applied to the concrete one-link page;
the selector strategy emits the item below, whose snippet and title bounds
follow from the theorem. -/
theorem extractor_bounds_witness :
    ((⟨str "hello world", str "/a", [], []⟩ : extractor.Item).snippet.length ≤
      settings.MAX_SNIPPET_LENGTH) ∧
    ((⟨str "hello world", str "/a", [], []⟩ : extractor.Item).title.length ≤
      300) :=
  ⟨(extractor_bounds c9urljoin c9soupW (str "http://x") (str "s")).2.1
      ⟨str "hello world", str "/a", [], []⟩ (by decide),
   (extractor_bounds c9urljoin c9soupW (str "http://x") (str "s")).2.2
      [[c9link]] ⟨str "hello world", str "/a", [], []⟩ (by decide)⟩

/-! ## Module import contract: src/llm/client.py and
src/config/settings.py -/

namespace imports

/-- Top-level names defined by the settings module, including the names
bound by its own import statements. -/
def settings_top_level_names : List String :=
  ["os", "Path", "PROJECT_ROOT", "DB_PATH", "DOCS_DIR", "TEMPLATES_DIR",
   "OPENAI_API_KEY", "OPENAI_MODEL", "OPENAI_MAX_TOKENS",
   "OPENAI_TEMPERATURE", "MAX_CONCURRENCY", "MAX_PER_DOMAIN",
   "REQUEST_TIMEOUT", "BROWSER_TIMEOUT", "MAX_RETRIES", "RETRY_BACKOFF",
   "MAX_SNIPPET_LENGTH", "MAX_ARTICLES_PER_SOURCE", "RELEVANCE_THRESHOLD",
   "DEDUP_SIMILARITY_THRESHOLD", "MIN_IMPORTANCE_FOR_REPORT",
   "LLM_BATCH_SIZE", "REPORT_TITLE", "REPORT_SUBTITLE", "USER_AGENTS",
   "CATEGORIES", "CATEGORY_ORDER", "LOG_LEVEL", "LOG_FORMAT"]

/-- Names the client module imports from the settings module at module
load time. -/
def client_settings_import_names : List String :=
  ["OPENAI_API_KEY", "OPENAI_BASE_URL", "OPENAI_MODEL", "OPENAI_MAX_TOKENS",
   "OPENAI_TEMPERATURE", "MAX_RETRIES", "RETRY_BACKOFF"]

/-- A from-import succeeds exactly when every requested name is an
attribute of the module; otherwise the import raises ImportError at module
load time. -/
def from_import_succeeds (names module_names : List String) : Bool :=
  names.all fun n => module_names.contains n

end imports

/-- C10: the client module imports OPENAI_BASE_URL from the settings
module, which defines no such name, so loading the client module raises
ImportError; every construction of LLMClient, and with it every oracle
call site including the keyword-fallback path, is unreachable as
written. -/
theorem client_import_fails :
    "OPENAI_BASE_URL" ∈ imports.client_settings_import_names ∧
    "OPENAI_BASE_URL" ∉ imports.settings_top_level_names ∧
    imports.from_import_succeeds imports.client_settings_import_names
      imports.settings_top_level_names = false := by
  decide
